import Mathlib

/-!
Verification of the GPRA subscription entitlement and lifecycle engine.

This file gives a shallow embedding of the billing webhook handlers
(`app/billing.py`), the autocreate quota check (`app/utils/rate_limits.py`),
the scheduled-deletion sweep (`cron/process_scheduled_deletions.py` together
with `app/utils/account_deletion.py`) and the row-level-security primitives
(`app/middleware/rls.py`), and proves or refutes the specification's claims
about them.

Modelling conventions:
- timestamps are integers (seconds); `timedelta(days=90)` is `90 * 86400`;
- money amounts (`mrr`, refunds) are rationals, matching Python's exact
  `unit_amount / 100` and `/ 12` arithmetic on these small values;
- each handler invocation receives a single `now`; the handful of repeated
  `datetime.now()` calls inside one Python handler body are modelled as one
  instant;
- Python truthiness tests on optional values are modelled by dedicated
  `pyTruthy…` helpers (`None` and `0`/empty string are falsy);
- external side effects (Stripe API calls, analytics events, e-mails, logs)
  do not change local state and are either omitted or surfaced as result
  components (refund instructions, outcome codes); fallible external calls
  are modelled by boolean oracles.
-/

namespace GPRA

/-- Timestamps in seconds (Python `datetime`, modelled as an integer). -/
abbrev Time := Int

/-- Python truthiness of an optional integer timestamp: `None` and `0` are falsy. -/
def pyTruthyTime : Option Time → Bool
  | none => false
  | some t => t != 0

/-- Python truthiness of an optional integer id: `None` and `0` are falsy. -/
def pyTruthyNat : Option Nat → Bool
  | none => false
  | some n => n != 0

/-- Python truthiness of an optional string: `None` and `""` are falsy. -/
def pyTruthyStr : Option String → Bool
  | none => false
  | some s => s != ""

/-- One row of the `subscriptions` table (`app/models.py`, class `Subscription`).
Field defaults are the column defaults (`tier='free'`, `status='active'`,
`mrr=0`, booleans false, the rest NULL). -/
structure Subscription where
  user_id : Nat
  stripe_customer_id : Option String := none
  stripe_subscription_id : Option String := none
  stripe_subscription_item_id : Option String := none
  stripe_price_id : Option String := none
  tier : String := "free"
  status : String := "active"
  mrr : Rat := 0
  current_period_start : Option Time := none
  current_period_end : Option Time := none
  cancel_at_period_end : Bool := false
  lapse_date : Option Time := none
  unplugged_mode : Bool := false
  data_deletion_date : Option Time := none
  last_active_routine_id : Option Nat := none
  deletion_scheduled_for : Option Time := none
  deletion_type : Option String := none
  prorated_refund_amount : Option Rat := none
  last_pause_action : Option Time := none
  is_complimentary : Bool := false
deriving DecidableEq, Repr

/-- One row of the `routines` table (`app/models.py`, class `Routine`);
only the columns the billing code touches. -/
structure Routine where
  id : Nat
  user_id : Nat
  created_at : Time
deriving DecidableEq, Repr

/-- The per-tenant slice of the database that the billing handlers read and
write: the tenant's subscription row (if any) and the tenant-visible
routines. -/
structure Db where
  sub : Option Subscription
  routines : List Routine
deriving DecidableEq, Repr

/-- A tenant's state at signup (`Subscription` row created with column
defaults: `tier='free'`, `status='active'`, `mrr=0`). -/
def initialDb (uid : Nat) : Db :=
  { sub := some { user_id := uid }, routines := [] }

/-- Tier configuration entry from `app/subscription_tiers.py`
(`SUBSCRIPTION_TIERS`); only the fields the billing code reads. -/
structure TierConfig where
  key : String
  stripe_price_id_monthly : Option String
  stripe_price_id_yearly : Option String
deriving DecidableEq, Repr

/-- `SUBSCRIPTION_TIERS` from `app/subscription_tiers.py`, in dict insertion
order, with the concrete Stripe price ids from the source. -/
def SUBSCRIPTION_TIERS : List TierConfig :=
  [ { key := "free", stripe_price_id_monthly := none, stripe_price_id_yearly := none },
    { key := "basic",
      stripe_price_id_monthly := some "price_1SOC2mJTZIlESiBEIHJBDZii",
      stripe_price_id_yearly := some "price_1SOC3BJTZIlESiBEnRpLW9nQ" },
    { key := "thegoods",
      stripe_price_id_monthly := some "price_1SOC3eJTZIlESiBEIblnPSdf",
      stripe_price_id_yearly := some "price_1SOC3mJTZIlESiBEeKndWeZk" },
    { key := "moregoods",
      stripe_price_id_monthly := some "price_1SOC4NJTZIlESiBElUo2Xx5D",
      stripe_price_id_yearly := some "price_1SOC4pJTZIlESiBEBt3Vowp8" },
    { key := "themost",
      stripe_price_id_monthly := some "price_1SOC5WJTZIlESiBEsfcyxKWa",
      stripe_price_id_yearly := some "price_1SOC5fJTZIlESiBEvaMXyyXP" },
    { key := "complimentary", stripe_price_id_monthly := none, stripe_price_id_yearly := none } ]

/-- Tier derivation in `handle_subscription_updated` (billing.py, 500-505):
first tier whose monthly or yearly price id equals the event's price id,
defaulting to `free`. -/
def tierFromPriceId (price_id : String) : String :=
  match SUBSCRIPTION_TIERS.find? (fun c =>
      c.stripe_price_id_monthly == some price_id ||
      c.stripe_price_id_yearly == some price_id) with
  | some c => c.key
  | none => "free"

/-- MRR computation (billing.py, 454-461 and 516-523): cents to currency
units, yearly amounts normalized to monthly. -/
def computeMrr (unit_amount : Int) (interval : String) : Rat :=
  let amount : Rat := (unit_amount : Rat) / 100
  if interval == "year" then amount / 12 else amount

/-- `status in ['active', 'trialing']` checks in billing.py. -/
def isHealthyStatus (st : String) : Bool :=
  st == "active" || st == "trialing"

/-- The fields of a Stripe subscription object that the handlers read. -/
structure StripeSubEvent where
  id : String
  customer : String
  status : String
  price_id : String
  item_id : String
  unit_amount : Int
  interval : String
  current_period_start : Option Time := none
  current_period_end : Option Time := none
  cancel_at_period_end : Bool := false
  cancel_at : Option Time := none
  metadata_user_id : Option Nat := none
  metadata_tier : Option String := none
  cancellation_reason : Option String := none
deriving DecidableEq, Repr

/-- The fields of a Stripe checkout-session object that
`handle_checkout_completed` reads. -/
structure CheckoutSessionEvent where
  metadata_user_id : Option Nat := none
  customer : Option String := none
  subscription : Option String := none
deriving DecidableEq, Repr

/-- The fields of a Stripe invoice object that the payment handlers read. -/
structure InvoiceEvent where
  subscription : Option String := none
deriving DecidableEq, Repr

/-- The webhook event kinds dispatched in `handle_stripe_webhook`
(billing.py, 341-354); `unhandled` covers every other `event['type']`. -/
inductive WebhookEvent
  | checkoutCompleted (s : CheckoutSessionEvent)
  | subscriptionCreated (e : StripeSubEvent)
  | subscriptionUpdated (e : StripeSubEvent)
  | subscriptionDeleted (e : StripeSubEvent)
  | paymentSucceeded (i : InvoiceEvent)
  | paymentFailed (i : InvoiceEvent)
  | unhandled (t : String)
deriving DecidableEq, Repr

/-- `handle_checkout_completed` (billing.py, 365-387): attach the Stripe
customer and subscription refs to the tenant's row found by `user_id`. -/
def handle_checkout_completed (db : Db) (session : CheckoutSessionEvent) : Db :=
  match session.metadata_user_id with
  | none => db
  | some uid =>
    match db.sub with
    | some s =>
      if s.user_id == uid then
        { db with sub := some { s with
            stripe_customer_id := session.customer,
            stripe_subscription_id := session.subscription } }
      else db
    | none => db

/-- `handle_subscription_created` (billing.py, 390-479): set refs, tier (from
event metadata, default `basic`), status, period bounds and MRR, and clear
the grace-period fields when the new status is healthy.  The
double-subscription safety net (billing.py, 413-438) only issues an external
Stripe cancel instruction and analytics event; it does not change the local
row, so it has no state effect here. -/
def handle_subscription_created (db : Db) (ev : StripeSubEvent) : Db :=
  match ev.metadata_user_id with
  | none => db
  | some uid =>
    match db.sub with
    | none => db
    | some s =>
      if s.user_id == uid then
        let tier := ev.metadata_tier.getD "basic"
        let s1 := { s with
          stripe_subscription_id := some ev.id,
          stripe_customer_id := some ev.customer,
          stripe_price_id := some ev.price_id,
          stripe_subscription_item_id := some ev.item_id,
          tier := tier,
          status := ev.status,
          current_period_start := ev.current_period_start,
          current_period_end := ev.current_period_end,
          cancel_at_period_end := ev.cancel_at_period_end,
          mrr := computeMrr ev.unit_amount ev.interval }
        let s2 := if isHealthyStatus ev.status then
            { s1 with unplugged_mode := false, lapse_date := none, data_deletion_date := none }
          else s1
        { db with sub := some s2 }
      else db

/-- `handle_subscription_updated` (billing.py, 482-579): match the row by the
stored `stripe_subscription_id`; recompute tier/price/MRR from the event's
price; clear the grace-period fields only when the event status is healthy
and no cancellation is pending (`cancel_at_period_end` or a truthy
`cancel_at`).  The handler never sets `unplugged_mode`; the code comment at
line 526 says unplugged mode is set by `handle_subscription_deleted`. -/
def handle_subscription_updated (db : Db) (ev : StripeSubEvent) : Db :=
  match db.sub with
  | none => db
  | some s =>
    if s.stripe_subscription_id == some ev.id then
      let s1 := { s with
        stripe_price_id := some ev.price_id,
        stripe_subscription_item_id := some ev.item_id,
        tier := tierFromPriceId ev.price_id,
        status := ev.status,
        current_period_start := ev.current_period_start,
        current_period_end := ev.current_period_end,
        cancel_at_period_end := ev.cancel_at_period_end,
        mrr := computeMrr ev.unit_amount ev.interval }
      let s2 := if isHealthyStatus ev.status
          && !(ev.cancel_at_period_end || pyTruthyTime ev.cancel_at) then
          { s1 with unplugged_mode := false, lapse_date := none, data_deletion_date := none }
        else s1
      { db with sub := some s2 }
    else db

/-- `ORDER BY created_at DESC ... first()` over the tenant's routines
(billing.py, 637 and 846): latest `created_at`, earliest-fetched row on
ties. -/
def newestRoutine (routines : List Routine) (uid : Nat) : Option Routine :=
  (routines.filter (fun r => r.user_id == uid)).foldl
    (fun acc r =>
      match acc with
      | none => some r
      | some b => if r.created_at > b.created_at then some r else acc)
    none

/-- `handle_subscription_deleted` (billing.py, 582-674): match the row by the
stored `stripe_subscription_id`; on `cancellation_requested` downgrade to
free/canceled, zero MRR, clear refs, and enter unplugged mode with
`lapse_date = now` and `data_deletion_date = now + 90 days`, preserving
`last_active_routine_id` (falling back to the newest routine); otherwise
(automated cancellation) hard-downgrade with no grace-period change. -/
def handle_subscription_deleted (db : Db) (now : Time) (ev : StripeSubEvent) : Db :=
  match db.sub with
  | none => db
  | some s =>
    if s.stripe_subscription_id == some ev.id then
      if ev.cancellation_reason == some "cancellation_requested" then
        let active_routine_id :=
          if pyTruthyNat s.last_active_routine_id then s.last_active_routine_id
          else match newestRoutine db.routines s.user_id with
            | some r => some r.id
            | none => s.last_active_routine_id
        { db with sub := some { s with
            tier := "free",
            status := "canceled",
            mrr := 0,
            stripe_subscription_id := none,
            stripe_price_id := none,
            cancel_at_period_end := false,
            unplugged_mode := true,
            lapse_date := some now,
            data_deletion_date := some (now + 90 * 86400),
            last_active_routine_id := active_routine_id } }
      else
        { db with sub := some { s with
            tier := "free",
            status := "canceled",
            mrr := 0,
            stripe_subscription_id := none,
            stripe_price_id := none,
            cancel_at_period_end := false } }
    else db

/-- `handle_payment_succeeded` (billing.py, 677-696): if the invoice carries a
subscription ref matching the stored one and the status is not already
`active`, set it to `active` and clear the grace-period fields. -/
def handle_payment_succeeded (db : Db) (inv : InvoiceEvent) : Db :=
  if pyTruthyStr inv.subscription then
    match db.sub with
    | none => db
    | some s =>
      if s.stripe_subscription_id == inv.subscription && s.status != "active" then
        { db with sub := some { s with
            status := "active",
            unplugged_mode := false,
            lapse_date := none,
            data_deletion_date := none } }
      else db
  else db

/-- `handle_payment_failed` (billing.py, 699-719): if the invoice carries a
subscription ref matching the stored one, set `status = 'past_due'`.  No
other column changes — in particular `mrr` is left as it was. -/
def handle_payment_failed (db : Db) (inv : InvoiceEvent) : Db :=
  if pyTruthyStr inv.subscription then
    match db.sub with
    | none => db
    | some s =>
      if s.stripe_subscription_id == inv.subscription then
        { db with sub := some { s with status := "past_due" } }
      else db
  else db

/-- Event dispatch of `handle_stripe_webhook` (billing.py, 341-354). -/
def applyEvent (now : Time) (db : Db) (e : WebhookEvent) : Db :=
  match e with
  | .checkoutCompleted s => handle_checkout_completed db s
  | .subscriptionCreated ev => handle_subscription_created db ev
  | .subscriptionUpdated ev => handle_subscription_updated db ev
  | .subscriptionDeleted ev => handle_subscription_deleted db now ev
  | .paymentSucceeded i => handle_payment_succeeded db i
  | .paymentFailed i => handle_payment_failed db i
  | .unhandled _ => db

/-- Outcome of the pause/unpause endpoints, abstracting the HTTP responses of
`set_unplugged_mode` and `unpause_subscription` (billing.py, 804-958):
`success` = 200, `notFound` = 404, `notPaused` = 400 "Subscription is not
paused", `rateLimited d` = 429 once-per-billing-period rejection carrying
the days remaining when `current_period_end` is set, `stripeError` = 500
after rollback. -/
inductive PauseOutcome
  | success
  | notFound
  | notPaused
  | rateLimited (days_until_next_period : Option Int)
  | stripeError
deriving DecidableEq, Repr

/-- The once-per-billing-period gate shared by `set_unplugged_mode`
(billing.py, 822-835) and `unpause_subscription` (billing.py, 903-915):
the last pause action exists and falls at or after the current period
start. -/
def pauseRateLimitHit (s : Subscription) : Bool :=
  match s.last_pause_action, s.current_period_start with
  | some lp, some ps => decide (ps ≤ lp)
  | _, _ => false

/-- `(period_end - datetime.now()).days` (billing.py, 832 and 912):
Python `timedelta.days` floors, as does `Int` division by a positive
constant. -/
def daysUntil (period_end now : Time) : Int :=
  (period_end - now) / 86400

/-- `set_unplugged_mode` (billing.py, 804-881): rejected when no row or when
the once-per-period gate fires (before any mutation); otherwise records
`last_pause_action = now`, stores the active routine (newest-routine
fallback), then instructs Stripe to cancel at period end.  `stripe_ok`
models that call; on failure the transaction is rolled back.  The handler
does not set `unplugged_mode`. -/
def set_unplugged_mode (db : Db) (now : Time) (stripe_ok : Bool) : PauseOutcome × Db :=
  match db.sub with
  | none => (.notFound, db)
  | some s =>
    if pauseRateLimitHit s then
      (.rateLimited (s.current_period_end.map (fun pe => daysUntil pe now)), db)
    else
      let active_routine_id :=
        if pyTruthyNat s.last_active_routine_id then s.last_active_routine_id
        else match newestRoutine db.routines s.user_id with
          | some r => some r.id
          | none => s.last_active_routine_id
      let s1 := { s with
        last_pause_action := some now,
        last_active_routine_id := active_routine_id }
      if pyTruthyStr s.stripe_subscription_id && !stripe_ok then
        (.stripeError, db)
      else
        (.success, { db with sub := some s1 })

/-- `unpause_subscription` (billing.py, 884-958): rejected when no row, when
not in unplugged mode, or when the once-per-period gate fires; otherwise
clears `unplugged_mode`, `lapse_date` and `data_deletion_date`, records
`last_pause_action = now`, and instructs Stripe to drop the scheduled
cancellation (`stripe_ok`; failure rolls back). -/
def unpause_subscription (db : Db) (now : Time) (stripe_ok : Bool) : PauseOutcome × Db :=
  match db.sub with
  | none => (.notFound, db)
  | some s =>
    if !s.unplugged_mode then
      (.notPaused, db)
    else if pauseRateLimitHit s then
      (.rateLimited (s.current_period_end.map (fun pe => daysUntil pe now)), db)
    else
      let s1 := { s with
        unplugged_mode := false,
        last_pause_action := some now,
        lapse_date := none,
        data_deletion_date := none }
      if pyTruthyStr s.stripe_subscription_id && !stripe_ok then
        (.stripeError, db)
      else
        (.success, { db with sub := some s1 })

/-- One mutation of the tenant's state: a webhook event, a user pause or
unpause call (with the Stripe-call oracle), or creating a routine. -/
inductive Step : Db → Db → Prop
  | webhook (now : Time) (e : WebhookEvent) (db : Db) :
      Step db (applyEvent now db e)
  | pause (now : Time) (ok : Bool) (db : Db) :
      Step db (set_unplugged_mode db now ok).2
  | unpause (now : Time) (ok : Bool) (db : Db) :
      Step db (unpause_subscription db now ok).2
  | addRoutine (r : Routine) (db : Db) :
      Step db { db with routines := db.routines ++ [r] }

/-- States reachable from the signup state of tenant `uid`. -/
inductive Reachable (uid : Nat) : Db → Prop
  | init : Reachable uid (initialDb uid)
  | step {a b : Db} : Reachable uid a → Step a b → Reachable uid b

/-- The grace-period invariant on a subscription row: `unplugged_mode = true`
implies `lapse_date` is set and `data_deletion_date` is exactly
`lapse_date + 90 days`. -/
def graceInv (s : Subscription) : Bool :=
  !s.unplugged_mode ||
    (match s.lapse_date, s.data_deletion_date with
     | some t, some d => d == t + 90 * 86400
     | _, _ => false)

/-- How one transition relates the old and new subscription row with respect
to the grace-period fields: it preserves all three, or clears unplugged mode
together with both dates, or enters unplugged mode establishing the
invariant. -/
def GraceOut (s s2 : Subscription) : Prop :=
  (s2.unplugged_mode = s.unplugged_mode ∧ s2.lapse_date = s.lapse_date ∧
    s2.data_deletion_date = s.data_deletion_date) ∨
  (s2.unplugged_mode = false ∧ s2.lapse_date = none ∧
    s2.data_deletion_date = none) ∨
  (s2.unplugged_mode = true ∧ graceInv s2 = true)

/-! ### Quota counter (`app/utils/rate_limits.py`) -/

/-- The raw row read by `check_autocreate_rate_limit` (rate_limits.py,
93-102): the four autocreate columns, each possibly NULL. -/
structure QuotaRow where
  calls_today : Option Nat := none
  calls_this_hour : Option Nat := none
  daily_reset_at : Option Time := none
  hourly_reset_at : Option Time := none
deriving DecidableEq, Repr

/-- `AUTOCREATE_RATE_LIMITS` (rate_limits.py, 20-27): tier to
(daily limit, hourly limit), `none` meaning unlimited. -/
def AUTOCREATE_RATE_LIMITS : List (String × Option Nat × Option Nat) :=
  [ ("free", some 0, some 0),
    ("basic", some 0, some 0),
    ("thegoods", some 25, some 10),
    ("moregoods", some 50, some 20),
    ("themost", some 100, some 40),
    ("complimentary", none, some 40) ]

/-- `get_tier_rate_limits` (rate_limits.py, 30-44). -/
def get_tier_rate_limits (tier : String) (is_complimentary : Bool) :
    Option Nat × Option Nat :=
  if is_complimentary then (none, some 40)
  else
    match AUTOCREATE_RATE_LIMITS.find? (fun p => p.1 == tier) with
    | some p => p.2
    | none => (some 0, some 0)

/-- Next UTC midnight after `now` (rate_limits.py, 122-126): midnight of
`now.date() + 1 day`. -/
def nextUtcMidnight (now : Time) : Time :=
  (now / 86400 + 1) * 86400

/-- Next hour boundary after `now` (rate_limits.py, 141-143):
`(now + 1h)` truncated to the hour. -/
def nextHourBoundary (now : Time) : Time :=
  (now / 3600 + 1) * 3600

/-- Reason component of the quota check result, abstracting the message
strings of `check_autocreate_rate_limit`. -/
inductive RateLimitReason
  | ok
  | okFailOpen
  | noAccess
  | noActiveSubscription
  | dailyLimitReached
  | hourlyLimitReached
deriving DecidableEq, Repr

/-- Return value of `check_autocreate_rate_limit` (rate_limits.py, 62-69):
`-1` remaining means unlimited. -/
structure CheckResult where
  allowed : Bool
  reason : RateLimitReason
  remaining_daily : Int
  remaining_hourly : Int
  daily_resets_at : Option Time
  hourly_resets_at : Option Time
deriving DecidableEq, Repr

/-- `check_autocreate_rate_limit` (rate_limits.py, 47-194).  `fetch` is the
database read of the tenant's counters: `.error` models the read (or any
later step of the `try` block) raising, `.ok none` models no active
subscription row.  The second component is the stored row after the call
(the self-heal `UPDATE`s). -/
def check_autocreate_rate_limit (tier : String) (is_complimentary : Bool)
    (is_using_own_key : Bool) (fetch : Except Unit (Option QuotaRow))
    (now : Time) : CheckResult × Except Unit (Option QuotaRow) :=
  if is_using_own_key then
    ({ allowed := true, reason := .ok, remaining_daily := -1, remaining_hourly := -1,
       daily_resets_at := none, hourly_resets_at := none }, fetch)
  else
    let limits := get_tier_rate_limits tier is_complimentary
    if limits.1 == some 0 && limits.2 == some 0 then
      ({ allowed := false, reason := .noAccess, remaining_daily := 0, remaining_hourly := 0,
         daily_resets_at := none, hourly_resets_at := none }, fetch)
    else
      match fetch with
      | .error e =>
        ({ allowed := true, reason := .okFailOpen, remaining_daily := -1, remaining_hourly := -1,
           daily_resets_at := none, hourly_resets_at := none }, .error e)
      | .ok none =>
        ({ allowed := false, reason := .noActiveSubscription,
           remaining_daily := 0, remaining_hourly := 0,
           daily_resets_at := none, hourly_resets_at := none }, .ok none)
      | .ok (some row) =>
        let dailyReset := match row.daily_reset_at with
          | none => true
          | some t => decide (t ≤ now)
        let hourlyReset := match row.hourly_reset_at with
          | none => true
          | some t => decide (t ≤ now)
        let calls_today := if dailyReset then 0 else row.calls_today.getD 0
        let calls_this_hour := if hourlyReset then 0 else row.calls_this_hour.getD 0
        let daily_reset_at :=
          if dailyReset then some (nextUtcMidnight now) else row.daily_reset_at
        let hourly_reset_at :=
          if hourlyReset then some (nextHourBoundary now) else row.hourly_reset_at
        let row2 : QuotaRow := { row with
          calls_today := if dailyReset then some 0 else row.calls_today,
          calls_this_hour := if hourlyReset then some 0 else row.calls_this_hour,
          daily_reset_at := daily_reset_at,
          hourly_reset_at := hourly_reset_at }
        let remaining_daily : Int := match limits.1 with
          | some l => (l : Int) - (calls_today : Int)
          | none => -1
        let remaining_hourly : Int := match limits.2 with
          | some l => (l : Int) - (calls_this_hour : Int)
          | none => -1
        let res : CheckResult :=
          if limits.1.any (fun l => calls_today ≥ l) then
            { allowed := false, reason := .dailyLimitReached,
              remaining_daily := remaining_daily, remaining_hourly := remaining_hourly,
              daily_resets_at := daily_reset_at, hourly_resets_at := hourly_reset_at }
          else if limits.2.any (fun l => calls_this_hour ≥ l) then
            { allowed := false, reason := .hourlyLimitReached,
              remaining_daily := remaining_daily, remaining_hourly := remaining_hourly,
              daily_resets_at := daily_reset_at, hourly_resets_at := hourly_reset_at }
          else
            { allowed := true, reason := .ok,
              remaining_daily := remaining_daily, remaining_hourly := remaining_hourly,
              daily_resets_at := daily_reset_at, hourly_resets_at := hourly_reset_at }
        (res, .ok (some row2))

/-! ### Scheduled-deletion sweep (`cron/process_scheduled_deletions.py`,
`app/utils/account_deletion.py`) -/

/-- The columns of a `subscriptions` row read by the sweep's selection query
(process_scheduled_deletions.py, 59-73). -/
structure DeletionRow where
  user_id : Nat
  deletion_scheduled_for : Option Time := none
  deletion_type : Option String := none
  prorated_refund_amount : Option Rat := none
  stripe_customer_id : Option String := none
deriving DecidableEq, Repr

/-- The slice of the database the sweep touches: subscription rows and the
`ab_user` ids they join against. -/
structure SweepDb where
  subs : List DeletionRow
  users : List Nat
deriving DecidableEq, Repr

/-- The sweep's selection predicate (process_scheduled_deletions.py, 59-73):
`deletion_scheduled_for` set and `<= now`, `deletion_type = 'scheduled'`,
joined against an existing `ab_user` row. -/
def dueForDeletion (now : Time) (db : SweepDb) : List DeletionRow :=
  db.subs.filter (fun r =>
    (match r.deletion_scheduled_for with
     | some d => decide (d ≤ now)
     | none => false)
    && r.deletion_type == some "scheduled"
    && db.users.contains r.user_id)

/-- `delete_user_account` (account_deletion.py, 58-157), success case: every
row owned by the user — including the subscription row and the `ab_user`
row — is deleted. -/
def delete_user_account (db : SweepDb) (uid : Nat) : SweepDb :=
  { subs := db.subs.filter (fun r => r.user_id ≠ uid),
    users := db.users.filter (fun u => u ≠ uid) }

/-- The observable result of one sweep run: the database afterwards, the
refund instructions issued to Stripe (user id, amount), and the users whose
deletion failed and was rolled back. -/
structure SweepState where
  db : SweepDb
  refunds : List (Nat × Rat)
  failures : List Nat
deriving DecidableEq, Repr

/-- Per-tenant body of the sweep loop (process_scheduled_deletions.py,
78-131): issue a refund instruction when a Stripe customer ref is present
and the prorated amount is truthy and positive; then delete the account.
`deleteOk` models `delete_user_account` succeeding; on failure the
transaction is rolled back (refund instructions, being external, are not)
and the error is recorded. -/
def sweepStep (deleteOk : Nat → Bool) (st : SweepState) (r : DeletionRow) : SweepState :=
  let refunds :=
    if pyTruthyStr r.stripe_customer_id
        && (match r.prorated_refund_amount with
            | some q => decide (0 < q)
            | none => false) then
      st.refunds ++ [(r.user_id, r.prorated_refund_amount.getD 0)]
    else st.refunds
  if deleteOk r.user_id then
    { db := delete_user_account st.db r.user_id, refunds := refunds,
      failures := st.failures }
  else
    { db := st.db, refunds := refunds, failures := st.failures ++ [r.user_id] }

/-- `process_scheduled_deletions` (process_scheduled_deletions.py, 40-139):
fetch the due rows once, then process each in turn. -/
def process_scheduled_deletions (db : SweepDb) (now : Time)
    (deleteOk : Nat → Bool) : SweepState :=
  (dueForDeletion now db).foldl (sweepStep deleteOk)
    { db := db, refunds := [], failures := [] }

/-! ### Webhook endpoint (`handle_stripe_webhook`, billing.py 314-362) -/

/-- `stripe.Webhook.construct_event` failure modes (billing.py, 329-334). -/
inductive SigError
  | invalidPayload
  | invalidSignature
deriving DecidableEq, Repr

/-- `handle_stripe_webhook` (billing.py, 314-362) as a function of the
verification outcome: missing secret gives 500; a payload or signature
verification failure gives 400 with the database untouched; a verified
event is dispatched, and any exception raised during processing
(`process_fails`) is caught, with 200 returned either way.  A processing
exception occurs before the handler's `db.commit()`, so the session's
uncommitted changes are discarded. -/
def handle_stripe_webhook (webhook_secret : Option String)
    (verified : Except SigError WebhookEvent) (process_fails : Bool)
    (now : Time) (db : Db) : Nat × Db :=
  match webhook_secret with
  | none => (500, db)
  | some _ =>
    match verified with
    | .error _ => (400, db)
    | .ok e =>
      if process_fails then (200, db)
      else (200, applyEvent now db e)

/-! ### Row-level security (`app/middleware/rls.py`) -/

/-- Python truthiness of the current identity (`if not user_id`,
rls.py 218): `None` and `0` are falsy. -/
def pyTruthyId : Option Int → Bool
  | none => false
  | some v => v != 0

/-- A record as seen by the RLS primitives: either it lacks a `user_id`
attribute (`hasattr` check, rls.py 222) or it has one, possibly NULL. -/
inductive RlsRecord
  | withoutUserIdAttr
  | withUserIdAttr (user_id : Option Int)
deriving DecidableEq, Repr

/-- `verify_user_ownership` (rls.py, 194-236). -/
def verify_user_ownership (ctx : Option Int) (record : RlsRecord)
    (allow_none : Bool) : Bool :=
  if !pyTruthyId ctx then false
  else
    match record with
    | .withoutUserIdAttr => false
    | .withUserIdAttr ruid =>
      if ruid == none && allow_none then true
      else if ruid == ctx then true
      else false

/-- `filter_by_user` (rls.py, 128-163): a query is a list of rows, each
carrying its (possibly NULL) `user_id`; with an identity and a model that
has `user_id`, narrow to matching rows, else return the query unchanged. -/
def filter_by_user (ctx : Option Int) (model_has_user_id : Bool)
    (rows : List (Option Int)) : List (Option Int) :=
  if pyTruthyId ctx && model_has_user_id then
    rows.filter (fun r => r == ctx)
  else rows

/-! ### Concrete instances used by counterexamples and witnesses -/

/-- A `customer.subscription.created` event: tenant 1 subscribes to a $10
monthly price. -/
def cexCreatedEvent : StripeSubEvent :=
  { id := "sub_1", customer := "cus_1", status := "active",
    price_id := "price_x", item_id := "si_1", unit_amount := 1000,
    interval := "month", metadata_user_id := some 1, metadata_tier := some "basic" }

/-- Tenant 1's state after the checkout above: active, `mrr = 10`. -/
def cexActiveDb : Db :=
  applyEvent 0 (initialDb 1) (.subscriptionCreated cexCreatedEvent)

/-- State after an `invoice.payment_failed` for the same subscription. -/
def cexPastDueDb : Db :=
  applyEvent 0 cexActiveDb (.paymentFailed { subscription := some "sub_1" })

/-- A stored subscription row holding an active Stripe subscription. -/
def cexStoredActiveSub : Subscription :=
  { user_id := 1, stripe_subscription_id := some "sub_1", status := "active",
    tier := "basic", mrr := 3 }

/-- A `customer.subscription.updated` event for the stored subscription that
signals an upcoming cancellation (`cancel_at_period_end = true`) while the
status is healthy. -/
def cexCancelScheduledEvent : StripeSubEvent :=
  { id := "sub_1", customer := "cus_1", status := "active",
    price_id := "price_1SOC2mJTZIlESiBEIHJBDZii", item_id := "si_1",
    unit_amount := 300, interval := "month", cancel_at_period_end := true }

/-- Result of delivering the cancellation-scheduling update. -/
def cexAfterCancelScheduled : Db :=
  handle_subscription_updated { sub := some cexStoredActiveSub, routines := [] }
    cexCancelScheduledEvent

/-- A subscription that already paused this billing period
(`last_pause_action = 100 ≥ current_period_start = 50`) but is not in
unplugged mode. -/
def cexPausedThisPeriodSub : Subscription :=
  { user_id := 1, unplugged_mode := false, last_pause_action := some 100,
    current_period_start := some 50, current_period_end := some 1000000 }

/-- Database holding `cexPausedThisPeriodSub`. -/
def cexPausedThisPeriodDb : Db :=
  { sub := some cexPausedThisPeriodSub, routines := [] }

/-- Same state but in unplugged mode, as left by a provider-confirmed
cancellation. -/
def cexUnpluggedSub : Subscription :=
  { cexPausedThisPeriodSub with
    unplugged_mode := true,
    lapse_date := some 90, data_deletion_date := some (90 + 90 * 86400) }

/-- Database holding `cexUnpluggedSub`. -/
def cexUnpluggedDb : Db :=
  { sub := some cexUnpluggedSub, routines := [] }

/-- A due-for-deletion subscription row for the sweep witness. -/
def cexDueRow : DeletionRow :=
  { user_id := 7, deletion_scheduled_for := some 10,
    deletion_type := some "scheduled", prorated_refund_amount := some 5,
    stripe_customer_id := some "cus_7" }

/-- Sweep database with the one due tenant. -/
def cexSweepDb : SweepDb := { subs := [cexDueRow], users := [7] }

/-- A stale quota row: both windows expired at time 100. -/
def cexStaleQuotaRow : QuotaRow :=
  { calls_today := some 7, calls_this_hour := some 3,
    daily_reset_at := some 100, hourly_reset_at := some 100 }

/-- An unplugged, canceled subscription about to be reactivated by a
successful payment. -/
def cexReactivationSub : Subscription :=
  { user_id := 1, stripe_subscription_id := some "sub_9", status := "canceled",
    unplugged_mode := true, lapse_date := some 90,
    data_deletion_date := some (90 + 90 * 86400) }

/-- Database holding `cexReactivationSub`. -/
def cexReactivationDb : Db := { sub := some cexReactivationSub, routines := [] }

/-- State after the reactivating `invoice.payment_succeeded` event. -/
def cexReactivatedDb : Db :=
  applyEvent 0 cexReactivationDb (.paymentSucceeded { subscription := some "sub_9" })

/-! ### Helper lemmas -/

/-- The next-midnight boundary is strictly in the future. -/
lemma now_lt_nextUtcMidnight (now : Int) : now < nextUtcMidnight now := by
  show now < (now / 86400 + 1) * 86400
  rw [Int.add_mul, one_mul]
  omega

/-- The next-hour boundary is strictly in the future. -/
lemma now_lt_nextHourBoundary (now : Int) : now < nextHourBoundary now := by
  show now < (now / 3600 + 1) * 3600
  rw [Int.add_mul, one_mul]
  omega

/-! ### C1 — MRR zero outside healthy statuses -/

/-- C1 (counterexample): a reachable state with `status = past_due` and
`mrr = 10 ≠ 0`.  Tenant 1 subscribes (subscription_created, $10/month), then
an `invoice.payment_failed` arrives: `handle_payment_failed` sets
`status = 'past_due'` but leaves `mrr` untouched, so the claimed invariant
`status ∉ {active, trialing} ⇒ mrr = 0` fails. -/
theorem mrr_invariant_cex :
    Reachable 1 cexPastDueDb ∧
    cexPastDueDb.sub.map Subscription.status = some "past_due" ∧
    cexPastDueDb.sub.map Subscription.mrr = some 10 ∧
    cexPastDueDb.sub.map Subscription.mrr ≠ some 0 := by
  have hmrr : cexPastDueDb.sub.map Subscription.mrr = some 10 := by
    simp [cexPastDueDb, cexActiveDb, cexCreatedEvent, initialDb, applyEvent,
      handle_subscription_created, handle_payment_failed, computeMrr,
      pyTruthyStr, isHealthyStatus]
    norm_num
  refine ⟨?_, ?_, hmrr, ?_⟩
  · exact Reachable.step
      (Reachable.step Reachable.init
        (Step.webhook 0 (.subscriptionCreated cexCreatedEvent) (initialDb 1)))
      (Step.webhook 0 (.paymentFailed { subscription := some "sub_1" }) cexActiveDb)
  · simp [cexPastDueDb, cexActiveDb, cexCreatedEvent, initialDb, applyEvent,
      handle_subscription_created, handle_payment_failed, pyTruthyStr,
      isHealthyStatus]
  · rw [hmrr]
    intro h
    have : (10 : Rat) = 0 := by injection h
    norm_num at this

/-- C1 (amended): `handle_subscription_deleted` always leaves the matched
row with `status = 'canceled'` and `mrr = 0` (both branches), but
`handle_payment_failed` leaves `mrr` unchanged while it may set
`status = 'past_due'`; the invariant `status ∉ {active, trialing} ⇒ mrr = 0`
therefore holds after subscription deletion but not after a failed
payment. -/
theorem mrr_invariant_amended :
    (∀ (db : Db) (now : Time) (ev : StripeSubEvent) (s : Subscription),
      db.sub = some s → s.stripe_subscription_id = some ev.id →
      ∃ s2 : Subscription, (handle_subscription_deleted db now ev).sub = some s2 ∧
        s2.status = "canceled" ∧ s2.mrr = 0) ∧
    (∀ (db : Db) (inv : InvoiceEvent),
      (handle_payment_failed db inv).sub.map Subscription.mrr =
        db.sub.map Subscription.mrr) := by
  constructor
  · intro db now ev s hs hid
    have hb : (s.stripe_subscription_id == some ev.id) = true := by simp [hid]
    cases hr : (ev.cancellation_reason == some "cancellation_requested") <;>
      simp only [handle_subscription_deleted, hs, hb, hr, if_true, if_false,
        Bool.false_eq_true, Bool.true_eq_false, ite_true, ite_false] <;>
      exact ⟨_, rfl, rfl, rfl⟩
  · intro db inv
    cases ht : pyTruthyStr inv.subscription with
    | false => simp [handle_payment_failed, ht]
    | true =>
      cases hs : db.sub with
      | none => simp [handle_payment_failed, ht, hs]
      | some s =>
        cases hm : (s.stripe_subscription_id == inv.subscription) <;>
          simp [handle_payment_failed, ht, hs, hm]

/-- C1 (witness for the amended theorem): deleting tenant 1's concrete active
subscription ends with status canceled and zero MRR. -/
theorem mrr_invariant_amended_witness :
    ∃ s2 : Subscription,
      (handle_subscription_deleted { sub := some cexStoredActiveSub, routines := [] } 0
        cexCancelScheduledEvent).sub = some s2 ∧
      s2.status = "canceled" ∧ s2.mrr = 0 :=
  mrr_invariant_amended.1 { sub := some cexStoredActiveSub, routines := [] } 0
    cexCancelScheduledEvent cexStoredActiveSub rfl rfl

/-! ### C3 — subscription_updated and the grace period -/

/-- C3 (counterexample): a `customer.subscription.updated` event signalling an
upcoming cancellation (`cancel_at_period_end = true`) on a stored healthy
subscription does NOT begin the grace period: `unplugged_mode` stays false
and `lapse_date`/`data_deletion_date` stay unset, contradicting the claim
that the handler sets `unplugged_mode = true` and `lapse_date = now`. -/
theorem updated_grace_period_cex :
    cexAfterCancelScheduled.sub.map Subscription.unplugged_mode = some false ∧
    cexAfterCancelScheduled.sub.map Subscription.lapse_date = some none ∧
    cexAfterCancelScheduled.sub.map Subscription.data_deletion_date = some none := by
  refine ⟨by decide, by decide, by decide⟩

/-- C3 (amended): when a `subscription_updated` event matched by the stored
external subscription ref signals an upcoming cancellation
(`cancel_at_period_end` or a truthy scheduled cancel timestamp),
`handle_subscription_updated` leaves the grace-period fields
(`unplugged_mode`, `lapse_date`, `data_deletion_date`,
`last_active_routine_id`) exactly as they were — it does not begin the
grace period (that is done by `handle_subscription_deleted`); it merely
skips the branch that would clear them. -/
theorem updated_grace_period_amended :
    ∀ (db : Db) (ev : StripeSubEvent) (s : Subscription),
      db.sub = some s → s.stripe_subscription_id = some ev.id →
      (ev.cancel_at_period_end = true ∨ pyTruthyTime ev.cancel_at = true) →
      ∃ s2 : Subscription, (handle_subscription_updated db ev).sub = some s2 ∧
        s2.unplugged_mode = s.unplugged_mode ∧
        s2.lapse_date = s.lapse_date ∧
        s2.data_deletion_date = s.data_deletion_date ∧
        s2.last_active_routine_id = s.last_active_routine_id := by
  intro db ev s hs hid hcancel
  have hb : (s.stripe_subscription_id == some ev.id) = true := by simp [hid]
  have hguard : (isHealthyStatus ev.status
      && !(ev.cancel_at_period_end || pyTruthyTime ev.cancel_at)) = false := by
    rcases hcancel with h | h <;> simp [h]
  simp only [handle_subscription_updated, hs, hb, hguard, if_true, if_false,
    Bool.false_eq_true, ite_true, ite_false]
  exact ⟨_, rfl, rfl, rfl, rfl, rfl⟩

/-- C3 (witness for the amended theorem): the concrete cancellation-scheduling
update leaves tenant 1's grace-period fields unchanged. -/
theorem updated_grace_period_amended_witness :
    ∃ s2 : Subscription,
      (handle_subscription_updated { sub := some cexStoredActiveSub, routines := [] }
        cexCancelScheduledEvent).sub = some s2 ∧
      s2.unplugged_mode = cexStoredActiveSub.unplugged_mode ∧
      s2.lapse_date = cexStoredActiveSub.lapse_date ∧
      s2.data_deletion_date = cexStoredActiveSub.data_deletion_date ∧
      s2.last_active_routine_id = cexStoredActiveSub.last_active_routine_id :=
  updated_grace_period_amended { sub := some cexStoredActiveSub, routines := [] }
    cexCancelScheduledEvent cexStoredActiveSub rfl rfl (Or.inl rfl)

/-! ### C6 — once-per-billing-period pause/unpause rule -/

/-- C6 (counterexample): with `last_pause_action = 100` at or after
`current_period_start = 50` (a pause already happened this billing period)
but `unplugged_mode = false` — exactly the state a pause leaves behind,
since `set_unplugged_mode` only schedules the cancellation — a second call
that is an unpause is rejected with the "Subscription is not paused" error,
not with the claimed `RateLimited` error. -/
theorem pause_rate_limit_cex :
    unpause_subscription cexPausedThisPeriodDb 500 true =
      (.notPaused, cexPausedThisPeriodDb) := by
  rfl

/-- C6 (amended): within the same billing period (`current_period_start` set
and `last_pause_action` at or after it) a second pause is rejected with
`RateLimited` carrying `(current_period_end - now) / 86400` days when the
period end is set (and no day count otherwise), leaving the Subscription
unchanged; a second unpause is rejected with the same `RateLimited` error
only when the subscription is in unplugged mode — when `unplugged_mode` is
false it is rejected with a "not paused" error instead, also unchanged; and
a pause succeeds only if `last_pause_action` is null or strictly older than
`current_period_start`. -/
theorem pause_rate_limit_amended :
    (∀ (db : Db) (s : Subscription) (now : Time) (ok : Bool) (lp ps : Time),
      db.sub = some s → s.last_pause_action = some lp →
      s.current_period_start = some ps → ps ≤ lp →
      set_unplugged_mode db now ok =
        (.rateLimited (s.current_period_end.map (fun pe => daysUntil pe now)), db)) ∧
    (∀ (db : Db) (s : Subscription) (now : Time) (ok : Bool) (lp ps : Time),
      db.sub = some s → s.unplugged_mode = true → s.last_pause_action = some lp →
      s.current_period_start = some ps → ps ≤ lp →
      unpause_subscription db now ok =
        (.rateLimited (s.current_period_end.map (fun pe => daysUntil pe now)), db)) ∧
    (∀ (db : Db) (s : Subscription) (now : Time) (ok : Bool),
      db.sub = some s → s.unplugged_mode = false →
      unpause_subscription db now ok = (.notPaused, db)) ∧
    (∀ (db : Db) (s : Subscription) (now : Time) (ok : Bool) (ps : Time),
      db.sub = some s → s.current_period_start = some ps →
      (set_unplugged_mode db now ok).1 = .success →
      s.last_pause_action = none ∨
        ∃ lp : Time, s.last_pause_action = some lp ∧ lp < ps) := by
  refine ⟨?_, ?_, ?_, ?_⟩
  · intro db s now ok lp ps hs hlp hps hle
    have hhit : pauseRateLimitHit s = true := by
      simp [pauseRateLimitHit, hlp, hps, hle]
    simp [set_unplugged_mode, hs, hhit]
  · intro db s now ok lp ps hs hup hlp hps hle
    have hhit : pauseRateLimitHit s = true := by
      simp [pauseRateLimitHit, hlp, hps, hle]
    simp [unpause_subscription, hs, hup, hhit]
  · intro db s now ok hs hup
    simp [unpause_subscription, hs, hup]
  · intro db s now ok ps hs hps hsucc
    cases hlp : s.last_pause_action with
    | none => exact Or.inl rfl
    | some lp =>
      refine Or.inr ⟨lp, rfl, ?_⟩
      by_contra hnot
      have hle : ps ≤ lp := not_lt.mp hnot
      have hhit : pauseRateLimitHit s = true := by
        simp [pauseRateLimitHit, hlp, hps, hle]
      rw [set_unplugged_mode] at hsucc
      simp only [hs, hhit, if_true, ite_true] at hsucc
      exact absurd hsucc (by simp)

/-- C6 (witness for the amended theorem): tenant 1 already paused at time 100
in the period starting at 50, so a pause at time 500 is rejected with
`RateLimited` carrying the days remaining, and the state is unchanged. -/
theorem pause_rate_limit_amended_witness :
    set_unplugged_mode cexPausedThisPeriodDb 500 true =
      (.rateLimited (cexPausedThisPeriodSub.current_period_end.map
        (fun pe => daysUntil pe 500)), cexPausedThisPeriodDb) :=
  pause_rate_limit_amended.1 cexPausedThisPeriodDb cexPausedThisPeriodSub 500 true
    100 50 rfl rfl rfl (by norm_num)

/-! ### C8 — webhook endpoint failure semantics -/

/-- C8 (confirmed): `handle_stripe_webhook` rejects a payload failing
signature verification with status 400 and the database unchanged (no
mutation), and when the per-event processing of a verified event raises, the
exception is caught and the endpoint still answers 200 so the sender does
not redeliver. -/
theorem webhook_failure_semantics :
    (∀ (secret : String) (err : SigError) (process_fails : Bool) (now : Time) (db : Db),
      handle_stripe_webhook (some secret) (.error err) process_fails now db = (400, db)) ∧
    (∀ (secret : String) (e : WebhookEvent) (now : Time) (db : Db),
      handle_stripe_webhook (some secret) (.ok e) true now db = (200, db)) :=
  ⟨fun _ _ _ _ _ => rfl, fun _ _ _ _ => rfl⟩

/-! ### C9 — quota check fails open on internal error -/

/-- C9 (confirmed): for a tier that reaches the counter logic (not the
no-access early return, no own API key), if the database read of the
counters fails, `check_autocreate_rate_limit` fails open: it returns
`allowed = true` with unlimited remaining `(-1, -1)`. -/
theorem quota_fail_open :
    ∀ (tier : String) (is_complimentary : Bool) (now : Time),
      ((get_tier_rate_limits tier is_complimentary).1 == some 0
        && (get_tier_rate_limits tier is_complimentary).2 == some 0) = false →
      check_autocreate_rate_limit tier is_complimentary false (.error ()) now =
        ({ allowed := true, reason := .okFailOpen, remaining_daily := -1,
           remaining_hourly := -1, daily_resets_at := none,
           hourly_resets_at := none }, .error ()) := by
  intro tier ic now h
  simp [check_autocreate_rate_limit, h]

/-- C9 (witness): the `thegoods` tier with a failing counters read is allowed
with unlimited remaining. -/
theorem quota_fail_open_witness :
    check_autocreate_rate_limit "thegoods" false false (.error ()) 0 =
      ({ allowed := true, reason := .okFailOpen, remaining_daily := -1,
         remaining_hourly := -1, daily_resets_at := none,
         hourly_resets_at := none }, .error ()) :=
  quota_fail_open "thegoods" false 0 (by rfl)

/-! ### C10 — ownership-check primitive vs. read filter -/

/-- C10 (confirmed): `verify_user_ownership` returns false whenever no
current identity is present and whenever the record lacks a `user_id`
attribute; it returns true only when the record's `user_id` equals the
current identity, or when `allow_none` is passed and the record's `user_id`
is NULL; by contrast `filter_by_user` is a no-op without an identity. -/
theorem ownership_check_correct :
    (∀ (record : RlsRecord) (allow_none : Bool),
      verify_user_ownership none record allow_none = false) ∧
    (∀ (ctx : Option Int) (allow_none : Bool),
      verify_user_ownership ctx .withoutUserIdAttr allow_none = false) ∧
    (∀ (ctx : Option Int) (record : RlsRecord) (allow_none : Bool),
      verify_user_ownership ctx record allow_none = true →
      ∃ v : Int, ctx = some v ∧ v ≠ 0 ∧
        (record = .withUserIdAttr (some v) ∨
          (allow_none = true ∧ record = .withUserIdAttr none))) ∧
    (∀ (model_has_user_id : Bool) (rows : List (Option Int)),
      filter_by_user none model_has_user_id rows = rows) := by
  refine ⟨?_, ?_, ?_, ?_⟩
  · intro record allow_none; rfl
  · intro ctx allow_none
    cases hc : pyTruthyId ctx <;> simp [verify_user_ownership, hc]
  · intro ctx record allow_none h
    cases ctx with
    | none => simp [verify_user_ownership, pyTruthyId] at h
    | some v =>
      by_cases hv : v = 0
      · subst hv; simp [verify_user_ownership, pyTruthyId] at h
      · refine ⟨v, rfl, hv, ?_⟩
        cases record with
        | withoutUserIdAttr => simp [verify_user_ownership, pyTruthyId, hv] at h
        | withUserIdAttr ruid =>
          cases ruid with
          | none =>
            cases han : allow_none with
            | true => exact Or.inr ⟨rfl, rfl⟩
            | false =>
              simp [verify_user_ownership, pyTruthyId, hv, han] at h
          | some w =>
            simp only [verify_user_ownership, pyTruthyId] at h
            have hw : w = v := by
              by_contra hne
              simp [hv, hne] at h
            subst hw
            exact Or.inl rfl
  · intro has_uid rows; rfl

/-- C10 (witness): identity 1 owns a record whose `user_id` is 1. -/
theorem ownership_check_correct_witness :
    ∃ v : Int, (some 1 : Option Int) = some v ∧ v ≠ 0 ∧
      (RlsRecord.withUserIdAttr (some 1) = .withUserIdAttr (some v) ∨
        (false = true ∧ RlsRecord.withUserIdAttr (some 1) = .withUserIdAttr none)) :=
  ownership_check_correct.2.2.1 (some 1) (.withUserIdAttr (some 1)) false (by rfl)

/-! ### C5 — quota windows self-heal inside the check -/

/-- C5 (confirmed): on the metered path (no own API key, a tier with access,
an active subscription row), whenever `now` is at or past a stored window
reset timestamp, `check_autocreate_rate_limit` resets that window's counter
to zero and advances its reset timestamp to the next boundary — next UTC
midnight for the daily window, next hour boundary for the hourly one —
before the limit comparison: the stored row afterwards holds a zero counter
and the new boundary, the new boundary is strictly in the future, and the
result reports the freshly-reset remaining (the full limit, or -1 when
unlimited) and the new reset timestamp. -/
theorem quota_self_heal :
    ∀ (tier : String) (is_complimentary : Bool) (row : QuotaRow) (now : Time),
      ((get_tier_rate_limits tier is_complimentary).1 == some 0
        && (get_tier_rate_limits tier is_complimentary).2 == some 0) = false →
      (∀ t : Time, row.daily_reset_at = some t → t ≤ now →
        ∃ row2 : QuotaRow,
          (check_autocreate_rate_limit tier is_complimentary false
              (.ok (some row)) now).2 = .ok (some row2) ∧
          row2.calls_today = some 0 ∧
          row2.daily_reset_at = some (nextUtcMidnight now) ∧
          now < nextUtcMidnight now ∧
          (check_autocreate_rate_limit tier is_complimentary false
              (.ok (some row)) now).1.daily_resets_at = some (nextUtcMidnight now) ∧
          (check_autocreate_rate_limit tier is_complimentary false
              (.ok (some row)) now).1.remaining_daily =
            (match (get_tier_rate_limits tier is_complimentary).1 with
             | some l => (l : Int)
             | none => -1)) ∧
      (∀ t : Time, row.hourly_reset_at = some t → t ≤ now →
        ∃ row2 : QuotaRow,
          (check_autocreate_rate_limit tier is_complimentary false
              (.ok (some row)) now).2 = .ok (some row2) ∧
          row2.calls_this_hour = some 0 ∧
          row2.hourly_reset_at = some (nextHourBoundary now) ∧
          now < nextHourBoundary now ∧
          (check_autocreate_rate_limit tier is_complimentary false
              (.ok (some row)) now).1.hourly_resets_at = some (nextHourBoundary now) ∧
          (check_autocreate_rate_limit tier is_complimentary false
              (.ok (some row)) now).1.remaining_hourly =
            (match (get_tier_rate_limits tier is_complimentary).2 with
             | some l => (l : Int)
             | none => -1)) := by
  intro tier ic row now hlim
  constructor
  · intro t ht hle
    have hd : (match row.daily_reset_at with
        | none => true
        | some t => decide (t ≤ now)) = true := by
      rw [ht]; simpa using hle
    simp only [check_autocreate_rate_limit, Bool.false_eq_true, if_false, hlim,
      hd, if_true, ite_true]
    refine ⟨_, rfl, ?_, ?_, now_lt_nextUtcMidnight now, ?_, ?_⟩ <;>
      split_ifs <;>
      simp [now_lt_nextUtcMidnight now]
  · intro t ht hle
    have hh : (match row.hourly_reset_at with
        | none => true
        | some t => decide (t ≤ now)) = true := by
      rw [ht]; simpa using hle
    simp only [check_autocreate_rate_limit, Bool.false_eq_true, if_false, hlim,
      hh, if_true, ite_true]
    refine ⟨_, rfl, ?_, ?_, now_lt_nextHourBoundary now, ?_, ?_⟩ <;>
      split_ifs <;>
      simp [now_lt_nextHourBoundary now]

/-- C5 (witness): a `thegoods`-tier row whose daily window expired at time
100 is checked at time 250: the stored counter is reset and the new
boundary is strictly in the future. -/
theorem quota_self_heal_witness :
    ∃ row2 : QuotaRow,
      (check_autocreate_rate_limit "thegoods" false false
          (.ok (some cexStaleQuotaRow)) 250).2 = .ok (some row2) ∧
      row2.calls_today = some 0 ∧
      row2.daily_reset_at = some (nextUtcMidnight 250) ∧
      (250 : Time) < nextUtcMidnight 250 ∧
      (check_autocreate_rate_limit "thegoods" false false
          (.ok (some cexStaleQuotaRow)) 250).1.daily_resets_at
        = some (nextUtcMidnight 250) ∧
      (check_autocreate_rate_limit "thegoods" false false
          (.ok (some cexStaleQuotaRow)) 250).1.remaining_daily =
        (match (get_tier_rate_limits "thegoods" false).1 with
         | some l => (l : Int)
         | none => -1) :=
  (quota_self_heal "thegoods" false cexStaleQuotaRow 250 (by rfl)).1 100 rfl
    (by norm_num)

/-! ### C7 — scheduled-deletion sweep idempotence -/

/-- One sweep-loop iteration never introduces subscription rows for a user
that has none. -/
lemma sweepStep_preserves_no_rows (deleteOk : Nat → Bool) (u : Nat)
    (st : SweepState) (r : DeletionRow)
    (h : ∀ x ∈ st.db.subs, x.user_id ≠ u) :
    ∀ x ∈ (sweepStep deleteOk st r).db.subs, x.user_id ≠ u := by
  intro x hx
  unfold sweepStep at hx
  by_cases hd : deleteOk r.user_id = true
  · simp only [hd, if_true, ite_true] at hx
    unfold delete_user_account at hx
    simp only [List.mem_filter] at hx
    exact h x hx.1
  · rw [Bool.not_eq_true] at hd
    simp only [hd, Bool.false_eq_true, if_false, ite_false] at hx
    exact h x hx

/-- The sweep loop never introduces subscription rows for a user that has
none. -/
lemma sweepLoop_preserves_no_rows (deleteOk : Nat → Bool) (u : Nat)
    (sel : List DeletionRow) (st : SweepState)
    (h : ∀ x ∈ st.db.subs, x.user_id ≠ u) :
    ∀ x ∈ (sel.foldl (sweepStep deleteOk) st).db.subs, x.user_id ≠ u := by
  induction sel generalizing st with
  | nil => exact h
  | cons r rest ih =>
    exact ih (sweepStep deleteOk st r) (sweepStep_preserves_no_rows deleteOk u st r h)

/-- After the sweep loop processes a selected row of user `u` whose account
deletion succeeds, no subscription row of `u` remains. -/
lemma sweepLoop_removes_user (deleteOk : Nat → Bool) (u : Nat)
    (hok : deleteOk u = true) (sel : List DeletionRow) (st : SweepState)
    (hmem : ∃ r ∈ sel, r.user_id = u) :
    ∀ x ∈ (sel.foldl (sweepStep deleteOk) st).db.subs, x.user_id ≠ u := by
  induction sel generalizing st with
  | nil => rcases hmem with ⟨r, hr, _⟩; cases hr
  | cons r rest ih =>
    rcases hmem with ⟨r0, hr0, hu⟩
    rcases List.mem_cons.mp hr0 with heq | hrest
    · subst heq
      subst hu
      have h1 : ∀ x ∈ (sweepStep deleteOk st r0).db.subs, x.user_id ≠ r0.user_id := by
        intro x hx
        unfold sweepStep at hx
        simp only [hok, if_true, ite_true] at hx
        unfold delete_user_account at hx
        simp only [List.mem_filter, decide_eq_true_eq] at hx
        exact hx.2
      exact sweepLoop_preserves_no_rows deleteOk r0.user_id rest _ h1
    · exact ih (sweepStep deleteOk st r) ⟨r0, hrest, hu⟩

/-- Every refund instruction issued by the sweep loop either was already in
the accumulator or names a user of a selected row. -/
lemma sweepLoop_refund_sources (deleteOk : Nat → Bool)
    (sel : List DeletionRow) (st : SweepState) :
    ∀ p ∈ (sel.foldl (sweepStep deleteOk) st).refunds,
      p ∈ st.refunds ∨ p.1 ∈ sel.map (fun r => r.user_id) := by
  induction sel generalizing st with
  | nil => intro p hp; exact Or.inl hp
  | cons r rest ih =>
    intro p hp
    rcases ih (sweepStep deleteOk st r) p hp with h1 | h1
    · have hstep : p ∈ st.refunds ∨ p.1 = r.user_id := by
        unfold sweepStep at h1
        by_cases hd : deleteOk r.user_id = true <;>
          [skip; rw [Bool.not_eq_true] at hd] <;>
          simp only [hd, if_true, ite_true, Bool.false_eq_true, if_false,
            ite_false] at h1 <;>
          split_ifs at h1 with hc <;>
          first
            | exact Or.inl h1
            | (rcases List.mem_append.mp h1 with h2 | h2
               · exact Or.inl h2
               · simp only [List.mem_singleton] at h2
                 subst h2
                 exact Or.inr rfl)
      rcases hstep with h2 | h2
      · exact Or.inl h2
      · exact Or.inr (by simp [h2])
    · exact Or.inr (by simp only [List.map_cons, List.mem_cons]; exact Or.inr h1)

/-- Every failure recorded by the sweep loop either was already in the
accumulator or names a user of a selected row. -/
lemma sweepLoop_failure_sources (deleteOk : Nat → Bool)
    (sel : List DeletionRow) (st : SweepState) :
    ∀ x ∈ (sel.foldl (sweepStep deleteOk) st).failures,
      x ∈ st.failures ∨ x ∈ sel.map (fun r => r.user_id) := by
  induction sel generalizing st with
  | nil => intro x hx; exact Or.inl hx
  | cons r rest ih =>
    intro x hx
    rcases ih (sweepStep deleteOk st r) x hx with h1 | h1
    · have hstep : x ∈ st.failures ∨ x = r.user_id := by
        unfold sweepStep at h1
        by_cases hd : deleteOk r.user_id = true <;>
          [skip; rw [Bool.not_eq_true] at hd] <;>
          simp only [hd, if_true, ite_true, Bool.false_eq_true, if_false,
            ite_false] at h1
        · exact Or.inl h1
        · rcases List.mem_append.mp h1 with h2 | h2
          · exact Or.inl h2
          · simp only [List.mem_singleton] at h2; exact Or.inr h2
      rcases hstep with h2 | h2
      · exact Or.inl h2
      · exact Or.inr (by simp [h2])
    · exact Or.inr (by simp only [List.map_cons, List.mem_cons]; exact Or.inr h1)

/-- C7 (confirmed): if a due tenant's first sweep pass completed successfully
(its `delete_user_account` succeeded), the tenant no longer matches the
selection predicate on a second pass at any later time, so the second pass
issues no refund instruction for the tenant and records no error for it. -/
theorem sweep_idempotent :
    ∀ (db : SweepDb) (now now2 : Time) (deleteOk deleteOk2 : Nat → Bool) (u : Nat),
      (∃ r ∈ dueForDeletion now db, r.user_id = u) →
      deleteOk u = true →
      ((∀ r ∈ dueForDeletion now2 (process_scheduled_deletions db now deleteOk).db,
          r.user_id ≠ u) ∧
       (∀ p ∈ (process_scheduled_deletions
            (process_scheduled_deletions db now deleteOk).db now2 deleteOk2).refunds,
          p.1 ≠ u) ∧
       (∀ x ∈ (process_scheduled_deletions
            (process_scheduled_deletions db now deleteOk).db now2 deleteOk2).failures,
          x ≠ u)) := by
  intro db now now2 deleteOk deleteOk2 u hmem hok
  have hnorows : ∀ x ∈ (process_scheduled_deletions db now deleteOk).db.subs,
      x.user_id ≠ u :=
    sweepLoop_removes_user deleteOk u hok (dueForDeletion now db) _ hmem
  have hnodue : ∀ r ∈ dueForDeletion now2 (process_scheduled_deletions db now deleteOk).db,
      r.user_id ≠ u := by
    intro r hr
    unfold dueForDeletion at hr
    exact hnorows r (List.mem_filter.mp hr).1
  refine ⟨hnodue, ?_, ?_⟩
  · intro p hp
    rcases sweepLoop_refund_sources deleteOk2 _ _ p hp with h | h
    · cases h
    · rcases List.mem_map.mp h with ⟨r, hr, hru⟩
      rw [← hru]
      exact hnodue r hr
  · intro x hx
    rcases sweepLoop_failure_sources deleteOk2 _ _ x hx with h | h
    · cases h
    · rcases List.mem_map.mp h with ⟨r, hr, hru⟩
      rw [← hru]
      exact hnodue r hr

/-- C7 (witness): the concrete due tenant 7 is swept at time 20; a second
sweep at time 30 names tenant 7 in no selection row, refund or failure. -/
theorem sweep_idempotent_witness :
    (∀ r ∈ dueForDeletion 30
        (process_scheduled_deletions cexSweepDb 20 (fun _ => true)).db,
      r.user_id ≠ 7) ∧
    (∀ p ∈ (process_scheduled_deletions
        (process_scheduled_deletions cexSweepDb 20 (fun _ => true)).db 30
        (fun _ => true)).refunds, p.1 ≠ 7) ∧
    (∀ x ∈ (process_scheduled_deletions
        (process_scheduled_deletions cexSweepDb 20 (fun _ => true)).db 30
        (fun _ => true)).failures, x ≠ 7) :=
  sweep_idempotent cexSweepDb 20 30 (fun _ => true) (fun _ => true) 7
    ⟨cexDueRow, by decide, rfl⟩ rfl

/-! ### C2 — webhook handler idempotency -/

/-- Replaying a `checkout.session.completed` event is a no-op: the Stripe
refs are overwritten with the same values. -/
lemma handle_checkout_completed_idem (db : Db) (ev : CheckoutSessionEvent) :
    handle_checkout_completed (handle_checkout_completed db ev) ev =
      handle_checkout_completed db ev := by
  cases hm : ev.metadata_user_id with
  | none => simp [handle_checkout_completed, hm]
  | some uid =>
    cases hs : db.sub with
    | none => simp [handle_checkout_completed, hm, hs]
    | some s =>
      cases hu : (s.user_id == uid) <;>
        simp [handle_checkout_completed, hm, hs, hu]

/-- Replaying a `customer.subscription.created` event is a no-op: every
assigned field is a function of the event alone. -/
lemma handle_subscription_created_idem (db : Db) (ev : StripeSubEvent) :
    handle_subscription_created (handle_subscription_created db ev) ev =
      handle_subscription_created db ev := by
  cases hm : ev.metadata_user_id with
  | none => simp [handle_subscription_created, hm]
  | some uid =>
    cases hs : db.sub with
    | none => simp [handle_subscription_created, hm, hs]
    | some s =>
      cases hu : (s.user_id == uid) <;>
        cases hh : isHealthyStatus ev.status <;>
        simp [handle_subscription_created, hm, hs, hu, hh]

/-- Replaying a `customer.subscription.updated` event is a no-op: the stored
subscription ref is not changed by the handler, so the second delivery
matches the same row and assigns the same values. -/
lemma handle_subscription_updated_idem (db : Db) (ev : StripeSubEvent) :
    handle_subscription_updated (handle_subscription_updated db ev) ev =
      handle_subscription_updated db ev := by
  cases hs : db.sub with
  | none => simp [handle_subscription_updated, hs]
  | some s =>
    cases hm : (s.stripe_subscription_id == some ev.id) <;>
      cases hg : (isHealthyStatus ev.status
        && !(ev.cancel_at_period_end || pyTruthyTime ev.cancel_at)) <;>
      simp only [handle_subscription_updated, hs, hm, hg, Bool.false_eq_true,
        if_true, if_false, ite_true, ite_false]

/-- Replaying a `customer.subscription.deleted` event is a no-op: the first
delivery clears the stored subscription ref, so the second finds no matching
row — regardless of the time of either delivery. -/
lemma handle_subscription_deleted_idem (db : Db) (now1 now2 : Time)
    (ev : StripeSubEvent) :
    handle_subscription_deleted (handle_subscription_deleted db now1 ev) now2 ev =
      handle_subscription_deleted db now1 ev := by
  cases hs : db.sub with
  | none => simp [handle_subscription_deleted, hs]
  | some s =>
    cases hm : (s.stripe_subscription_id == some ev.id) <;>
      cases hr : (ev.cancellation_reason == some "cancellation_requested") <;>
      simp [handle_subscription_deleted, hs, hm, hr]

/-- Replaying an `invoice.payment_succeeded` event is a no-op: after the
first delivery the status is `active`, so the second takes the no-change
branch. -/
lemma handle_payment_succeeded_idem (db : Db) (inv : InvoiceEvent) :
    handle_payment_succeeded (handle_payment_succeeded db inv) inv =
      handle_payment_succeeded db inv := by
  cases ht : pyTruthyStr inv.subscription with
  | false => simp [handle_payment_succeeded, ht]
  | true =>
    cases hs : db.sub with
    | none => simp [handle_payment_succeeded, ht, hs]
    | some s =>
      cases hc : (s.stripe_subscription_id == inv.subscription
          && s.status != "active") <;>
        simp [handle_payment_succeeded, ht, hs, hc]

/-- Replaying an `invoice.payment_failed` event is a no-op: the status is set
to `past_due` twice. -/
lemma handle_payment_failed_idem (db : Db) (inv : InvoiceEvent) :
    handle_payment_failed (handle_payment_failed db inv) inv =
      handle_payment_failed db inv := by
  cases ht : pyTruthyStr inv.subscription with
  | false => simp [handle_payment_failed, ht]
  | true =>
    cases hs : db.sub with
    | none => simp [handle_payment_failed, ht, hs]
    | some s =>
      cases hm : (s.stripe_subscription_id == inv.subscription) <;>
        simp [handle_payment_failed, ht, hs, hm]

/-- C2 (confirmed): applying the handler for any webhook event twice in
succession — at any pair of delivery times — yields the same Subscription
state as applying it once; in particular a replayed
`customer.subscription.deleted` finds no row with the already-cleared
external subscription ref and is a no-op. -/
theorem webhook_idempotent :
    ∀ (e : WebhookEvent) (now1 now2 : Time) (db : Db),
      applyEvent now2 (applyEvent now1 db e) e = applyEvent now1 db e := by
  intro e now1 now2 db
  cases e with
  | checkoutCompleted s => exact handle_checkout_completed_idem db s
  | subscriptionCreated ev => exact handle_subscription_created_idem db ev
  | subscriptionUpdated ev => exact handle_subscription_updated_idem db ev
  | subscriptionDeleted ev => exact handle_subscription_deleted_idem db now1 now2 ev
  | paymentSucceeded i => exact handle_payment_succeeded_idem db i
  | paymentFailed i => exact handle_payment_failed_idem db i
  | unhandled t => rfl

/-! ### C4 — grace-period bound invariant -/

/-- Case analysis of one transition's effect on the grace-period fields:
either the subscription row is carried over unchanged, or the old and new
rows are related by `GraceOut` (fields preserved, cleared together, or
unplugged mode entered with the 90-day bound established). -/
lemma step_graceOut {a b : Db} (hstep : Step a b) :
    ∀ s2 : Subscription, b.sub = some s2 →
      a.sub = some s2 ∨ ∃ s : Subscription, a.sub = some s ∧ GraceOut s s2 := by
  cases hstep with
  | webhook now e db =>
    intro s2 hs2
    cases e with
    | checkoutCompleted ev =>
      cases hm : ev.metadata_user_id with
      | none =>
        left
        simp only [applyEvent, handle_checkout_completed, hm] at hs2
        exact hs2
      | some uid =>
        cases hs : a.sub with
        | none =>
          left
          simp only [applyEvent, handle_checkout_completed, hm, hs] at hs2
          exact hs2
        | some s =>
          cases hu : (s.user_id == uid) with
          | false =>
            left
            simp only [applyEvent, handle_checkout_completed, hm, hs, hu,
              Bool.false_eq_true, if_false, ite_false] at hs2
            exact hs2
          | true =>
            right
            simp only [applyEvent, handle_checkout_completed, hm, hs, hu,
              if_true, ite_true, Option.some.injEq] at hs2
            refine ⟨s, rfl, ?_⟩
            rw [← hs2]
            exact Or.inl ⟨rfl, rfl, rfl⟩
    | subscriptionCreated ev =>
      cases hm : ev.metadata_user_id with
      | none =>
        left
        simp only [applyEvent, handle_subscription_created, hm] at hs2
        exact hs2
      | some uid =>
        cases hs : a.sub with
        | none =>
          left
          simp only [applyEvent, handle_subscription_created, hm, hs] at hs2
          exact hs2
        | some s =>
          cases hu : (s.user_id == uid) with
          | false =>
            left
            simp only [applyEvent, handle_subscription_created, hm, hs, hu,
              Bool.false_eq_true, if_false, ite_false] at hs2
            exact hs2
          | true =>
            right
            cases hh : isHealthyStatus ev.status with
            | true =>
              simp only [applyEvent, handle_subscription_created, hm, hs, hu, hh,
                if_true, ite_true, Option.some.injEq] at hs2
              refine ⟨s, rfl, ?_⟩
              rw [← hs2]
              exact Or.inr (Or.inl ⟨rfl, rfl, rfl⟩)
            | false =>
              simp only [applyEvent, handle_subscription_created, hm, hs, hu, hh,
                Bool.false_eq_true, if_true, if_false, ite_true, ite_false,
                Option.some.injEq] at hs2
              refine ⟨s, rfl, ?_⟩
              rw [← hs2]
              exact Or.inl ⟨rfl, rfl, rfl⟩
    | subscriptionUpdated ev =>
      cases hs : a.sub with
      | none =>
        left
        simp only [applyEvent, handle_subscription_updated, hs] at hs2
        exact hs2
      | some s =>
        cases hm : (s.stripe_subscription_id == some ev.id) with
        | false =>
          left
          simp only [applyEvent, handle_subscription_updated, hs, hm,
            Bool.false_eq_true, if_false, ite_false] at hs2
          exact hs2
        | true =>
          right
          cases hg : (isHealthyStatus ev.status
              && !(ev.cancel_at_period_end || pyTruthyTime ev.cancel_at)) with
          | true =>
            simp only [applyEvent, handle_subscription_updated, hs, hm, hg,
              if_true, ite_true, Option.some.injEq] at hs2
            refine ⟨s, rfl, ?_⟩
            rw [← hs2]
            exact Or.inr (Or.inl ⟨rfl, rfl, rfl⟩)
          | false =>
            simp only [applyEvent, handle_subscription_updated, hs, hm, hg,
              Bool.false_eq_true, if_true, if_false, ite_true, ite_false,
              Option.some.injEq] at hs2
            refine ⟨s, rfl, ?_⟩
            rw [← hs2]
            exact Or.inl ⟨rfl, rfl, rfl⟩
    | subscriptionDeleted ev =>
      cases hs : a.sub with
      | none =>
        left
        simp only [applyEvent, handle_subscription_deleted, hs] at hs2
        exact hs2
      | some s =>
        cases hm : (s.stripe_subscription_id == some ev.id) with
        | false =>
          left
          simp only [applyEvent, handle_subscription_deleted, hs, hm,
            Bool.false_eq_true, if_false, ite_false] at hs2
          exact hs2
        | true =>
          right
          cases hr : (ev.cancellation_reason == some "cancellation_requested") with
          | true =>
            simp only [applyEvent, handle_subscription_deleted, hs, hm, hr,
              if_true, ite_true, Option.some.injEq] at hs2
            refine ⟨s, rfl, ?_⟩
            rw [← hs2]
            refine Or.inr (Or.inr ⟨rfl, ?_⟩)
            simp [graceInv]
          | false =>
            simp only [applyEvent, handle_subscription_deleted, hs, hm, hr,
              Bool.false_eq_true, if_true, if_false, ite_true, ite_false,
              Option.some.injEq] at hs2
            refine ⟨s, rfl, ?_⟩
            rw [← hs2]
            exact Or.inl ⟨rfl, rfl, rfl⟩
    | paymentSucceeded inv =>
      cases ht : pyTruthyStr inv.subscription with
      | false =>
        left
        simp only [applyEvent, handle_payment_succeeded, ht, Bool.false_eq_true,
          if_false, ite_false] at hs2
        exact hs2
      | true =>
        cases hs : a.sub with
        | none =>
          left
          simp only [applyEvent, handle_payment_succeeded, ht, hs, if_true,
            ite_true] at hs2
          exact hs2
        | some s =>
          cases hc : (s.stripe_subscription_id == inv.subscription
              && s.status != "active") with
          | false =>
            left
            simp only [applyEvent, handle_payment_succeeded, ht, hs, hc,
              Bool.false_eq_true, if_true, if_false, ite_true, ite_false] at hs2
            exact hs2
          | true =>
            right
            simp only [applyEvent, handle_payment_succeeded, ht, hs, hc, if_true,
              ite_true, Option.some.injEq] at hs2
            refine ⟨s, rfl, ?_⟩
            rw [← hs2]
            exact Or.inr (Or.inl ⟨rfl, rfl, rfl⟩)
    | paymentFailed inv =>
      cases ht : pyTruthyStr inv.subscription with
      | false =>
        left
        simp only [applyEvent, handle_payment_failed, ht, Bool.false_eq_true,
          if_false, ite_false] at hs2
        exact hs2
      | true =>
        cases hs : a.sub with
        | none =>
          left
          simp only [applyEvent, handle_payment_failed, ht, hs, if_true,
            ite_true] at hs2
          exact hs2
        | some s =>
          cases hm : (s.stripe_subscription_id == inv.subscription) with
          | false =>
            left
            simp only [applyEvent, handle_payment_failed, ht, hs, hm,
              Bool.false_eq_true, if_true, if_false, ite_true, ite_false] at hs2
            exact hs2
          | true =>
            right
            simp only [applyEvent, handle_payment_failed, ht, hs, hm, if_true,
              ite_true, Option.some.injEq] at hs2
            refine ⟨s, rfl, ?_⟩
            rw [← hs2]
            exact Or.inl ⟨rfl, rfl, rfl⟩
    | unhandled t =>
      left
      simpa [applyEvent] using hs2
  | pause now ok db =>
    intro s2 hs2
    cases hs : a.sub with
    | none =>
      left
      simp only [set_unplugged_mode, hs] at hs2
      exact hs2
    | some s =>
      cases hrl : pauseRateLimitHit s with
      | true =>
        left
        simp only [set_unplugged_mode, hs, hrl, if_true, ite_true] at hs2
        exact hs2
      | false =>
        cases hstripe : (pyTruthyStr s.stripe_subscription_id && !ok) with
        | true =>
          left
          simp only [set_unplugged_mode, hs, hrl, hstripe, Bool.false_eq_true,
            if_true, if_false, ite_true, ite_false] at hs2
          exact hs2
        | false =>
          right
          simp only [set_unplugged_mode, hs, hrl, hstripe, Bool.false_eq_true,
            if_true, if_false, ite_true, ite_false, Option.some.injEq] at hs2
          refine ⟨s, rfl, ?_⟩
          rw [← hs2]
          exact Or.inl ⟨rfl, rfl, rfl⟩
  | unpause now ok db =>
    intro s2 hs2
    cases hs : a.sub with
    | none =>
      left
      simp only [unpause_subscription, hs] at hs2
      exact hs2
    | some s =>
      cases hup : s.unplugged_mode with
      | false =>
        left
        simp only [unpause_subscription, hs, hup, Bool.not_false, if_true,
          ite_true] at hs2
        exact hs2
      | true =>
        cases hrl : pauseRateLimitHit s with
        | true =>
          left
          simp only [unpause_subscription, hs, hup, hrl, Bool.not_true,
            Bool.false_eq_true, if_true, if_false, ite_true, ite_false] at hs2
          exact hs2
        | false =>
          cases hstripe : (pyTruthyStr s.stripe_subscription_id && !ok) with
          | true =>
            left
            simp only [unpause_subscription, hs, hup, hrl, hstripe, Bool.not_true,
              Bool.false_eq_true, if_true, if_false, ite_true, ite_false] at hs2
            exact hs2
          | false =>
            right
            simp only [unpause_subscription, hs, hup, hrl, hstripe, Bool.not_true,
              Bool.false_eq_true, if_true, if_false, ite_true, ite_false,
              Option.some.injEq] at hs2
            refine ⟨s, rfl, ?_⟩
            rw [← hs2]
            exact Or.inr (Or.inl ⟨rfl, rfl, rfl⟩)
  | addRoutine r db =>
    intro s2 hs2
    left
    exact hs2

/-- One transition preserves the grace-period invariant on the subscription
row. -/
lemma step_preserves_graceInv {a b : Db} (hstep : Step a b)
    (h : ∀ s : Subscription, a.sub = some s → graceInv s = true) :
    ∀ s2 : Subscription, b.sub = some s2 → graceInv s2 = true := by
  intro s2 hs2
  rcases step_graceOut hstep s2 hs2 with h1 | ⟨s, hs, hout⟩
  · exact h s2 h1
  · rcases hout with ⟨h1, h2, h3⟩ | ⟨h1, h2, h3⟩ | ⟨h1, h2⟩
    · have hgs := h s hs
      simp only [graceInv, h1, h2, h3]
      simpa only [graceInv] using hgs
    · simp [graceInv, h1, h2, h3]
    · exact h2

/-- C4 (confirmed): in every reachable state, `unplugged_mode = true` implies
`lapse_date` is set and `data_deletion_date` equals `lapse_date` plus
exactly 90 days; and every transition that sets `unplugged_mode` back to
false also clears both `lapse_date` and `data_deletion_date`. -/
theorem grace_period_invariant :
    (∀ (uid : Nat) (db : Db), Reachable uid db →
      ∀ s : Subscription, db.sub = some s → graceInv s = true) ∧
    (∀ (a b : Db), Step a b →
      ∀ (s s2 : Subscription), a.sub = some s → b.sub = some s2 →
        s.unplugged_mode = true → s2.unplugged_mode = false →
        s2.lapse_date = none ∧ s2.data_deletion_date = none) := by
  constructor
  · intro uid db hreach
    induction hreach with
    | init =>
      intro s hs
      simp only [initialDb, Option.some.injEq] at hs
      rw [← hs]
      rfl
    | step _ hstep ih =>
      exact step_preserves_graceInv hstep ih
  · intro a b hstep s s2 hsa hsb hup hdown
    rcases step_graceOut hstep s2 hsb with h1 | ⟨s0, hs0, hout⟩
    · rw [hsa] at h1
      have : s = s2 := by injection h1
      rw [← this] at hdown
      rw [hup] at hdown
      cases hdown
    · have hss0 : s0 = s := by
        rw [hsa] at hs0
        injection hs0 with h2
        exact h2.symm
      subst hss0
      rcases hout with ⟨h1, h2, h3⟩ | ⟨h1, h2, h3⟩ | ⟨h1, h2⟩
      · rw [hup] at h1
        rw [h1] at hdown
        cases hdown
      · exact ⟨h2, h3⟩
      · rw [h1] at hdown
        cases hdown

/-- C4 (witness): the signup state satisfies the invariant, and the concrete
reactivation transition (payment succeeded while unplugged) clears both
grace dates. -/
theorem grace_period_invariant_witness :
    graceInv ({ user_id := 1 } : Subscription) = true ∧
    (({ cexReactivationSub with
        status := "active", unplugged_mode := false, lapse_date := none,
        data_deletion_date := none } : Subscription).lapse_date = none ∧
      ({ cexReactivationSub with
        status := "active", unplugged_mode := false, lapse_date := none,
        data_deletion_date := none } : Subscription).data_deletion_date = none) :=
  ⟨grace_period_invariant.1 1 (initialDb 1) Reachable.init _ rfl,
   grace_period_invariant.2 cexReactivationDb cexReactivatedDb
     (Step.webhook 0 (.paymentSucceeded { subscription := some "sub_9" })
       cexReactivationDb)
     cexReactivationSub
     { cexReactivationSub with
       status := "active", unplugged_mode := false, lapse_date := none,
       data_deletion_date := none }
     rfl rfl rfl rfl⟩

end GPRA
